import Mathlib

/-!
Shallow embedding of `src/static/app.js`, the browser-side controller of the
activity sign-up page.  The DOM pieces the script touches (the activities list
container, the activity selection control, the message banner, the signup form
fields, and the pending auto-hide timers) are modelled as explicit state; each
event handler becomes a state-transition function parametrised by the outcome
of its network calls.  `encodeURIComponent` / `decodeURIComponent` are the
ECMA-262 built-ins the script calls; they are embedded as executable functions
on `List Char` (UTF-8 percent-encoding).
-/

namespace App

/-! ### URI component encoding (ECMA-262 built-ins used by the script) -/

/-- Characters `encodeURIComponent` leaves unescaped:
`A-Z a-z 0-9 - _ . ! ~ * ' ( )`. -/
def isUnreservedURI (c : Char) : Bool :=
  ('A' ≤ c && c ≤ 'Z') || ('a' ≤ c && c ≤ 'z') || ('0' ≤ c && c ≤ '9') ||
    c = '-' || c = '_' || c = '.' || c = '!' || c = '~' || c = '*' ||
    c.toNat = 39 || c = '(' || c = ')'

/-- Upper-case hexadecimal digit for `n < 16`, as emitted by
`encodeURIComponent`. -/
def hexDigitChar (n : Nat) : Char :=
  if n < 10 then Char.ofNat (48 + n) else Char.ofNat (55 + n)

/-- Value of a hexadecimal digit character (either case accepted, as in
`decodeURIComponent`). -/
def hexVal (c : Char) : Option Nat :=
  if '0' ≤ c ∧ c ≤ '9' then some (c.toNat - 48)
  else if 'A' ≤ c ∧ c ≤ 'F' then some (c.toNat - 55)
  else if 'a' ≤ c ∧ c ≤ 'f' then some (c.toNat - 87)
  else none

/-- UTF-8 encoding of a Unicode scalar value, written with division and
remainder by powers of two. -/
def utf8EncodeCodepoint (v : Nat) : List Nat :=
  if v < 0x80 then [v]
  else if v < 0x800 then [0xC0 + v / 64, 0x80 + v % 64]
  else if v < 0x10000 then
    [0xE0 + v / 4096, 0x80 + v / 64 % 64, 0x80 + v % 64]
  else
    [0xF0 + v / 262144, 0x80 + v / 4096 % 64, 0x80 + v / 64 % 64,
      0x80 + v % 64]

/-- UTF-8 bytes of a character. -/
def utf8EncodeChar (c : Char) : List Nat :=
  utf8EncodeCodepoint c.toNat

/-- Strict UTF-8 decoding, one byte per step.  The second argument is the
state of a partially read multi-byte sequence: `some (v, need, low)` means
`v` has been accumulated so far, `need` continuation bytes are still
expected, and the finished scalar value must be at least `low` (which rules
out overlong forms).  Truncated sequences, stray or missing continuation
bytes, overlong forms, surrogates and values above `0x10FFFF` are rejected,
as `decodeURIComponent` does (it throws `URIError`). -/
def utf8DecodeAux : List Nat → Option (Nat × Nat × Nat) → Option (List Char)
  | [], none => some []
  | [], some _ => none
  | b :: rest, none =>
    if b < 0x80 then (utf8DecodeAux rest none).map (fun cs => Char.ofNat b :: cs)
    else if b < 0xC2 then none
    else if b < 0xE0 then utf8DecodeAux rest (some (b - 0xC0, 1, 0x80))
    else if b < 0xF0 then utf8DecodeAux rest (some (b - 0xE0, 2, 0x800))
    else if b < 0xF5 then utf8DecodeAux rest (some (b - 0xF0, 3, 0x10000))
    else none
  | b :: rest, some (v, need, low) =>
    if 0x80 ≤ b ∧ b < 0xC0 then
      if need = 1 then
        if low ≤ v * 64 + (b - 0x80) ∧ v * 64 + (b - 0x80) < 0x110000 ∧
            ¬(0xD800 ≤ v * 64 + (b - 0x80) ∧ v * 64 + (b - 0x80) < 0xE000) then
          (utf8DecodeAux rest none).map
            (fun cs => Char.ofNat (v * 64 + (b - 0x80)) :: cs)
        else none
      else utf8DecodeAux rest (some (v * 64 + (b - 0x80), need - 1, low))
    else none
termination_by structural l => l

/-- UTF-8 decoding of a byte sequence into characters. -/
def utf8Decode (bs : List Nat) : Option (List Char) :=
  utf8DecodeAux bs none

/-- Encoding of one character by `encodeURIComponent`: unreserved characters
pass through, every other character becomes `%XX` escapes of its UTF-8
bytes. -/
def encodeCharURI (c : Char) : List Char :=
  if isUnreservedURI c then [c]
  else (utf8EncodeChar c).flatMap fun b =>
    ['%', hexDigitChar (b / 16), hexDigitChar (b % 16)]

/-- ECMA-262 `encodeURIComponent`. -/
def encodeURIComponent (s : List Char) : List Char :=
  s.flatMap encodeCharURI

/-- First phase of `decodeURIComponent`: turn the character stream into a byte
stream, reading `%XX` escapes as single bytes and other characters as their
own UTF-8 bytes; `none` models a thrown `URIError` (stray or malformed `%`
escape). -/
def uriCharsToBytes : List Char → Option (List Nat)
  | [] => some []
  | c :: rest =>
    if c = '%' then
      match rest with
      | h1 :: h2 :: rest2 =>
        match hexVal h1, hexVal h2 with
        | some a, some b =>
          (uriCharsToBytes rest2).map fun bs => (a * 16 + b) :: bs
        | _, _ => none
      | _ => none
    else
      (uriCharsToBytes rest).map fun bs => utf8EncodeChar c ++ bs
termination_by structural l => l

/-- ECMA-262 `decodeURIComponent`; `none` models a thrown `URIError`. -/
def decodeURIComponent (s : List Char) : Option (List Char) :=
  (uriCharsToBytes s).bind utf8Decode

/-! ### Data model (section 3 of the spec, `GET /activities` response) -/

/-- One activity as delivered by `GET /activities`.  `participants = none`
models a response in which the `participants` field is absent or `null`
(reading `.length` on it throws a `TypeError`). -/
structure ActivityDetails where
  description : String
  schedule : String
  max_participants : Int
  participants : Option (List String)
deriving DecidableEq

/-- One rendered participant row (`li.participant-item`): the two
percent-encoded data attributes, the avatar glyph and the visible label.  The
remove button carries no data of its own. -/
structure ParticipantRow where
  dataActivity : List Char
  dataEmail : List Char
  avatar : String
  label : String
deriving DecidableEq

/-- One rendered activity card.  `rows = none` models the
"No participants yet — be the first!" placeholder paragraph. -/
structure ActivityCard where
  title : String
  description : String
  schedule : String
  spotsLeft : Int
  rows : Option (List ParticipantRow)
deriving DecidableEq

/-- Content of the `#activities-list` container: either plain text (the
initial loading text or the fixed failure message) or rendered cards. -/
inductive ListContent where
  | text (s : String)
  | cards (cs : List ActivityCard)
deriving DecidableEq

/-- Content of the `#activity` selection control: either whatever markup it
held before any render (`raw`), or the placeholder option followed by one
option per listed name (`options`). -/
inductive SelectContent where
  | raw (s : String)
  | options (names : List String)
deriving DecidableEq

/-- The `#message` banner: its text and its class tokens (visible iff the
`"hidden"` token is absent). -/
structure Banner where
  text : String
  classes : List String
deriving DecidableEq

/-- Observable page state: the two rendered containers, the banner, the two
signup-form fields and the delays of the pending banner auto-hide timers. -/
structure PageState where
  activitiesList : ListContent
  activitySelect : SelectContent
  banner : Banner
  formEmail : String
  formActivity : String
  timers : List Nat
deriving DecidableEq

/-- Models `element.classList.add(c)`: appends the token unless present. -/
def classListAdd (cs : List String) (c : String) : List String :=
  if c ∈ cs then cs else cs ++ [c]

/-- Models `element.classList.remove(c)`: drops every occurrence of the token. -/
def classListRemove (cs : List String) (c : String) : List String :=
  cs.filter (· ≠ c)

/-- The banner is visible iff its class list lacks the `"hidden"` token. -/
def bannerVisible (b : Banner) : Prop := "hidden" ∉ b.classes

/-- Callback armed by `setTimeout(() => messageDiv.classList.add("hidden")`,
`5000)`: adds the `"hidden"` token back to the banner. -/
def fireHideTimer (st : PageState) : PageState :=
  { st with banner :=
      { st.banner with classes := classListAdd st.banner.classes ("hidden") } }

/-! ### Activity Renderer (`fetchActivities`, app.js lines 8-62) -/

/-- Outcome of the `GET /activities` round trip as the script observes it:
the `fetch` promise rejects (`networkError`), or a response arrives with an
HTTP status (`ok` = `response.ok`) whose `response.json()` either rejects
(`.error ()`) or yields the activity object, modelled as its
`Object.entries` list in key order. -/
inductive FetchResult where
  | networkError
  | response (ok : Bool) (body : Except Unit (List (String × ActivityDetails)))

/-- Fixed failure text written by the renderer's catch branch
(app.js line 59). -/
def failureText : String := "Failed to load activities. Please try again later."

/-- Models `label.charAt(0).toUpperCase()` (app.js line 32): first character of the
label upper-cased, or the empty string when the label is empty. -/
def avatarGlyph (label : String) : String :=
  match label.toList with
  | [] => ""
  | c :: _ => String.mk [c.toUpper]

/-- Rendered `li.participant-item` for participant `p` of activity `name`
(app.js line 32): both data attributes hold `encodeURIComponent` of their
value. -/
def participantRow (name p : String) : ParticipantRow :=
  { dataActivity := encodeURIComponent name.toList
    dataEmail := encodeURIComponent p.toList
    avatar := avatarGlyph p
    label := p }

/-- Card built for an activity whose `participants` list is present
(app.js lines 19-48): `spotsLeft = max_participants - participants.length`
(line 22), and the guard `details.participants && details.participants.length`
(line 26) picks the placeholder exactly when the list is empty. -/
def buildCard (name : String) (details : ActivityDetails) (ps : List String) :
    ActivityCard :=
  { title := name
    description := details.description
    schedule := details.schedule
    spotsLeft := details.max_participants - (ps.length : Int)
    rows := if ps.length ≠ 0 then some (ps.map (participantRow name)) else none }

/-- One iteration of the render loop.  When `participants` is absent or
`null`, evaluating `details.participants.length` inside the `spotsLeft`
expression (app.js line 22) throws a `TypeError` — before the
participants-presence guard of line 26 is ever consulted — so the iteration
yields `.error ()`. -/
def renderCard (name : String) (details : ActivityDetails) :
    Except Unit ActivityCard :=
  match details.participants with
  | none => .error ()
  | some ps => .ok (buildCard name details ps)

/-- The `Object.entries(activities).forEach` loop (app.js lines 18-57),
threading the cards appended to the list container and the option names
appended to the selection control.  An exception thrown by an iteration
aborts the loop; the `.error` value carries the cards and options already
appended to the DOM at that point. -/
def renderActivities :
    List (String × ActivityDetails) → List ActivityCard → List String →
      Except (List ActivityCard × List String) (List ActivityCard × List String)
  | [], cards, names => .ok (cards, names)
  | (name, details) :: rest, cards, names =>
    match renderCard name details with
    | .ok card => renderActivities rest (cards ++ [card]) (names ++ [name])
    | .error _ => .error (cards, names)

/-- Render operation `fetchActivities` (app.js lines 8-62).  The catch branch (lines 58-61)
replaces the list container with `failureText`; the list and the selection
control are cleared (lines 14-15) only after `response.json()` resolved, so
on a network or parse error the selection control keeps its prior content;
the HTTP status is never consulted. -/
def fetchActivities (res : FetchResult) (st : PageState) : PageState :=
  match res with
  | .networkError => { st with activitiesList := .text failureText }
  | .response _ok (.error _) => { st with activitiesList := .text failureText }
  | .response _ok (.ok activities) =>
    match renderActivities activities [] [] with
    | .ok (cards, names) =>
      { st with activitiesList := .cards cards, activitySelect := .options names }
    | .error (_cards, names) =>
      { st with activitiesList := .text failureText
                activitySelect := .options names }

/-! ### Signup Handler (app.js lines 65-106) -/

/-- Parsed JSON body of a signup / removal response: the optional `message`
and `detail` fields. -/
structure ReplyBody where
  message : Option String
  detail : Option String
deriving DecidableEq

/-- Outcome of a `POST …/signup` or `DELETE …/participants` round trip: the
`fetch` or `response.json()` promise rejects (`netError`, both land in the
same catch), or a parsed body arrives with `ok` = `response.ok`. -/
inductive ApiResult where
  | netError
  | reply (ok : Bool) (body : ReplyBody)

/-- JavaScript `x || fallback` on a possibly-absent string field: the
fallback is used when the field is absent (`undefined`) or the empty string
(both falsy). -/
def jsOr (x : Option String) (fallback : String) : String :=
  match x with
  | some s => if s = "" then fallback else s
  | none => fallback

/-- Models `messageDiv.textContent = result.message`: assigning `undefined` to the
nullable `textContent` attribute stores the empty string. -/
def textContentOf (m : Option String) : String :=
  match m with
  | some s => s
  | none => ""

/-- The signup form's submit handler (app.js lines 65-106), parametrised by
the signup round-trip outcome and by the `GET /activities` outcome of the
re-render a success triggers.  On success (lines 82-88): banner gets the
server message and the `success` class (replacing the whole class attribute),
the form is reset, the list is re-fetched; on HTTP failure (lines 89-92):
banner gets `result.detail || "An error occurred"` and the `error` class.
Both then remove `hidden` (line 94) and arm a 5-second auto-hide timer
(lines 97-99).  The catch branch (lines 100-105) sets a fixed failure text
and the `error` class and removes `hidden`, but arms no timer. -/
def signupHandler (res : ApiResult) (refetch : FetchResult) (st : PageState) :
    PageState :=
  match res with
  | .netError =>
    { st with banner :=
        { text := "Failed to sign up. Please try again."
          classes := classListRemove ["error"] "hidden" } }
  | .reply true body =>
    let st1 : PageState :=
      { st with banner := { text := textContentOf body.message
                            classes := ["success"] }
                formEmail := ""
                formActivity := "" }
    let st2 := fetchActivities refetch st1
    let st3 : PageState :=
      { st2 with banner :=
          { st2.banner with
              classes := classListRemove st2.banner.classes ("hidden") } }
    { st3 with timers := st3.timers ++ [5000] }
  | .reply false body =>
    let st1 : PageState :=
      { st with banner := { text := jsOr body.detail ("An error occurred")
                            classes := ["error"] } }
    let st2 : PageState :=
      { st1 with banner :=
          { st1.banner with
              classes := classListRemove st1.banner.classes ("hidden") } }
    { st2 with timers := st2.timers ++ [5000] }

/-! ### Removal Handler (app.js lines 112-154) -/

/-- Data attributes of the `li.participant-item` enclosing a clicked remove
button; `none` models an absent attribute (`dataset.x` is `undefined`). -/
structure RowData where
  dataActivity : Option (List Char)
  dataEmail : Option (List Char)

/-- What the click handler can observe about the event target:
whether `event.target.closest(".participant-remove")` found a remove button,
and the enclosing `.participant-item` row, when any. -/
structure ClickContext where
  onRemoveBtn : Bool
  item : Option RowData

/-- Models `decodeURIComponent(item.dataset.x)` (app.js lines 120-121): when the
attribute is absent, `decodeURIComponent(undefined)` stringifies its argument
to `"undefined"` and decodes that, yielding the literal string `"undefined"`;
when present, a malformed value makes the call throw (`.error ()`), which
aborts the handler since lines 120-121 sit outside the try block. -/
def jsDecodeAttr (attr : Option (List Char)) : Except Unit (List Char) :=
  match attr with
  | none => .ok ("undefined".toList)
  | some cs =>
    match decodeURIComponent cs with
    | some r => .ok r
    | none => .error ()

/-- Network part of the Removal Handler (app.js lines 129-153), parametrised
by the `DELETE` round-trip outcome and by the `GET /activities` outcome of
the re-render a success triggers.  Success (lines 133-139): server message,
`success` class, un-hide, re-fetch; HTTP failure (lines 140-144):
`resJson.detail || "Failed to remove participant"`, `error` class, un-hide;
both arm the 5-second auto-hide timer (line 146).  The catch branch (lines
147-152) sets the fixed text `"Failed to remove participant"`, the `error`
class, un-hides and also arms the timer. -/
def removalFetchPart (res : ApiResult) (refetch : FetchResult)
    (st : PageState) : PageState :=
  match res with
  | .netError =>
    { st with banner :=
        { text := "Failed to remove participant"
          classes := classListRemove ["error"] "hidden" }
              timers := st.timers ++ [5000] }
  | .reply true body =>
    let st1 : PageState :=
      { st with banner :=
          { text := textContentOf body.message
            classes := classListRemove ["success"] "hidden" } }
    let st2 := fetchActivities refetch st1
    { st2 with timers := st2.timers ++ [5000] }
  | .reply false body =>
    { st with banner :=
        { text := jsOr body.detail ("Failed to remove participant")
          classes := classListRemove ["error"] "hidden" }
              timers := st.timers ++ [5000] }

/-- Result of one click on the activities container: the new page state,
the confirmation prompt shown to the user (if any), and the
`(activity, email)` pair of the `DELETE` request issued (if any). -/
structure HandlerOutput where
  state : PageState
  confirmPrompt : Option String
  request : Option (String × String)
deriving DecidableEq

/-- The delegated click handler on the activities container (app.js lines
112-154).  Aborts when the click is not on a remove button (line 114) or no
enclosing participant row exists (line 118); decodes the two data attributes
(lines 120-121); aborts when either decoded string is empty (line 123, the
only falsy string); shows the confirmation dialog (line 126) and aborts if
declined (line 127); otherwise performs the `DELETE` round trip. -/
def removalHandler (ctx : ClickContext) (confirmAnswer : Bool)
    (res : ApiResult) (refetch : FetchResult) (st : PageState) :
    HandlerOutput :=
  if ctx.onRemoveBtn = false then ⟨st, none, none⟩
  else
    match ctx.item with
    | none => ⟨st, none, none⟩
    | some row =>
      match jsDecodeAttr row.dataActivity, jsDecodeAttr row.dataEmail with
      | .ok act, .ok em =>
        if act.isEmpty ∨ em.isEmpty then ⟨st, none, none⟩
        else
          let prompt :=
            "Unregister " ++ em.asString ++ " from " ++ act.asString ++ "?"
          if confirmAnswer = false then ⟨st, some prompt, none⟩
          else
            ⟨removalFetchPart res refetch st, some prompt,
              some (act.asString, em.asString)⟩
      | _, _ => ⟨st, none, none⟩

/-! ### Concrete states and inputs used to evaluate the model -/

/-- A concrete page state as it stands after an earlier successful render:
one activity option in the selection control, hidden banner, empty form. -/
def demoState : PageState :=
  { activitiesList := .text ("Loading activities...")
    activitySelect := .options ["Chess Club"]
    banner := { text := "", classes := ["hidden"] }
    formEmail := ""
    formActivity := ""
    timers := [] }

/-- A click on a remove button whose participant row lacks the
`data-activity` attribute but has `data-email="a%40b.c"`. -/
def missingAttrClick : ClickContext :=
  { onRemoveBtn := true
    item := some { dataActivity := none, dataEmail := some ("a%40b.c".toList) } }

/-- Number of participant rows a rendered card shows (zero for the
"no participants" placeholder). -/
def renderedRowCount (card : ActivityCard) : Nat :=
  match card.rows with
  | some rows => rows.length
  | none => 0

/-- A concrete well-formed `GET /activities` body. -/
def demoEntries : List (String × ActivityDetails) :=
  [("Chess Club",
    { description := "Fun", schedule := "Fri", max_participants := 10
      participants := some ["a@b", "c@d"] })]

/-- A concrete `GET /activities` body whose second activity lacks the
`participants` field. -/
def badEntries : List (String × ActivityDetails) :=
  [("Chess Club",
    { description := "Fun", schedule := "Fri", max_participants := 10
      participants := some ["a@b"] }),
   ("Art Club",
    { description := "Paint", schedule := "Mon", max_participants := 5
      participants := none })]

/-! ## Theorems

First the percent-encoding round trip, then per-claim results. -/

theorem char_toNat_valid (c : Char) :
    c.toNat < 0xD800 ∨ (0xDFFF < c.toNat ∧ c.toNat < 0x110000) := by
  have h := c.valid
  unfold isValidChar at h
  rcases h with h | ⟨h1, h2⟩
  · exact Or.inl h
  · exact Or.inr ⟨h1, h2⟩

theorem char_toNat_lt (c : Char) : c.toNat < 0x110000 := by
  rcases char_toNat_valid c with h | ⟨_, h⟩ <;> omega

theorem hexVal_hexDigitChar_fin :
    ∀ i : Fin 16, hexVal (hexDigitChar i.val) = some i.val := by decide

theorem hexVal_hexDigitChar (n : Nat) (h : n < 16) :
    hexVal (hexDigitChar n) = some n :=
  hexVal_hexDigitChar_fin ⟨n, h⟩

theorem utf8EncodeCodepoint_lt (v : Nat) (hv : v < 0x110000) :
    ∀ b ∈ utf8EncodeCodepoint v, b < 256 := by
  intro b hb
  unfold utf8EncodeCodepoint at hb
  split_ifs at hb <;>
    simp only [List.mem_cons, List.mem_singleton, List.not_mem_nil,
      or_false] at hb <;>
    omega

theorem utf8DecodeAux_ascii (b : Nat) (bs : List Nat) (h : b < 0x80) :
    utf8DecodeAux (b :: bs) none
      = (utf8DecodeAux bs none).map (fun cs => Char.ofNat b :: cs) := by
  show (if b < 0x80 then
        (utf8DecodeAux bs none).map (fun cs => Char.ofNat b :: cs)
      else if b < 0xC2 then none
      else if b < 0xE0 then utf8DecodeAux bs (some (b - 0xC0, 1, 0x80))
      else if b < 0xF0 then utf8DecodeAux bs (some (b - 0xE0, 2, 0x800))
      else if b < 0xF5 then utf8DecodeAux bs (some (b - 0xF0, 3, 0x10000))
      else none) = _
  rw [if_pos h]

theorem utf8DecodeAux_lead2 (b : Nat) (bs : List Nat)
    (h0 : 0xC2 ≤ b) (h1 : b < 0xE0) :
    utf8DecodeAux (b :: bs) none
      = utf8DecodeAux bs (some (b - 0xC0, 1, 0x80)) := by
  show (if b < 0x80 then
        (utf8DecodeAux bs none).map (fun cs => Char.ofNat b :: cs)
      else if b < 0xC2 then none
      else if b < 0xE0 then utf8DecodeAux bs (some (b - 0xC0, 1, 0x80))
      else if b < 0xF0 then utf8DecodeAux bs (some (b - 0xE0, 2, 0x800))
      else if b < 0xF5 then utf8DecodeAux bs (some (b - 0xF0, 3, 0x10000))
      else none) = _
  rw [if_neg (by omega), if_neg (by omega), if_pos h1]

theorem utf8DecodeAux_lead3 (b : Nat) (bs : List Nat)
    (h0 : 0xE0 ≤ b) (h1 : b < 0xF0) :
    utf8DecodeAux (b :: bs) none
      = utf8DecodeAux bs (some (b - 0xE0, 2, 0x800)) := by
  show (if b < 0x80 then
        (utf8DecodeAux bs none).map (fun cs => Char.ofNat b :: cs)
      else if b < 0xC2 then none
      else if b < 0xE0 then utf8DecodeAux bs (some (b - 0xC0, 1, 0x80))
      else if b < 0xF0 then utf8DecodeAux bs (some (b - 0xE0, 2, 0x800))
      else if b < 0xF5 then utf8DecodeAux bs (some (b - 0xF0, 3, 0x10000))
      else none) = _
  rw [if_neg (by omega), if_neg (by omega), if_neg (by omega), if_pos h1]

theorem utf8DecodeAux_lead4 (b : Nat) (bs : List Nat)
    (h0 : 0xF0 ≤ b) (h1 : b < 0xF5) :
    utf8DecodeAux (b :: bs) none
      = utf8DecodeAux bs (some (b - 0xF0, 3, 0x10000)) := by
  show (if b < 0x80 then
        (utf8DecodeAux bs none).map (fun cs => Char.ofNat b :: cs)
      else if b < 0xC2 then none
      else if b < 0xE0 then utf8DecodeAux bs (some (b - 0xC0, 1, 0x80))
      else if b < 0xF0 then utf8DecodeAux bs (some (b - 0xE0, 2, 0x800))
      else if b < 0xF5 then utf8DecodeAux bs (some (b - 0xF0, 3, 0x10000))
      else none) = _
  rw [if_neg (by omega), if_neg (by omega), if_neg (by omega),
    if_neg (by omega), if_pos h1]

theorem utf8DecodeAux_more (b v need low : Nat) (bs : List Nat)
    (h0 : 0x80 ≤ b) (h1 : b < 0xC0) (h2 : need ≠ 1) :
    utf8DecodeAux (b :: bs) (some (v, need, low))
      = utf8DecodeAux bs (some (v * 64 + (b - 0x80), need - 1, low)) := by
  show (if 0x80 ≤ b ∧ b < 0xC0 then
      if need = 1 then
        if low ≤ v * 64 + (b - 0x80) ∧ v * 64 + (b - 0x80) < 0x110000 ∧
            ¬(0xD800 ≤ v * 64 + (b - 0x80) ∧ v * 64 + (b - 0x80) < 0xE000) then
          (utf8DecodeAux bs none).map
            (fun cs => Char.ofNat (v * 64 + (b - 0x80)) :: cs)
        else none
      else utf8DecodeAux bs (some (v * 64 + (b - 0x80), need - 1, low))
    else none) = _
  rw [if_pos ⟨h0, h1⟩, if_neg h2]

theorem utf8DecodeAux_last (b v low w : Nat) (bs : List Nat)
    (h0 : 0x80 ≤ b) (h1 : b < 0xC0)
    (hw : v * 64 + (b - 0x80) = w)
    (h2 : low ≤ w) (h3 : w < 0x110000) (h4 : ¬(0xD800 ≤ w ∧ w < 0xE000)) :
    utf8DecodeAux (b :: bs) (some (v, 1, low))
      = (utf8DecodeAux bs none).map (fun cs => Char.ofNat w :: cs) := by
  show (if 0x80 ≤ b ∧ b < 0xC0 then
      if (1 : Nat) = 1 then
        if low ≤ v * 64 + (b - 0x80) ∧ v * 64 + (b - 0x80) < 0x110000 ∧
            ¬(0xD800 ≤ v * 64 + (b - 0x80) ∧ v * 64 + (b - 0x80) < 0xE000) then
          (utf8DecodeAux bs none).map
            (fun cs => Char.ofNat (v * 64 + (b - 0x80)) :: cs)
        else none
      else utf8DecodeAux bs (some (v * 64 + (b - 0x80), 1 - 1, low))
    else none) = _
  rw [if_pos ⟨h0, h1⟩, if_pos rfl, hw, if_pos ⟨h2, h3, h4⟩]

theorem utf8DecodeAux_encodeChar (c : Char) (bs : List Nat) :
    utf8DecodeAux (utf8EncodeChar c ++ bs) none
      = (utf8DecodeAux bs none).map (fun cs => c :: cs) := by
  have hval := char_toNat_valid c
  unfold utf8EncodeChar utf8EncodeCodepoint
  by_cases hr1 : c.toNat < 0x80
  · rw [if_pos hr1]
    simp only [List.cons_append, List.nil_append]
    rw [utf8DecodeAux_ascii _ _ hr1, Char.ofNat_toNat]
  · rw [if_neg hr1]
    by_cases hr2 : c.toNat < 0x800
    · rw [if_pos hr2]
      simp only [List.cons_append, List.nil_append]
      rw [utf8DecodeAux_lead2 _ _ (by omega) (by omega)]
      rw [utf8DecodeAux_last (0x80 + c.toNat % 64) (0xC0 + c.toNat / 64 - 0xC0)
        0x80 c.toNat bs (by omega) (by omega) (by omega) (by omega) (by omega)
        (by omega)]
      rw [Char.ofNat_toNat]
    · rw [if_neg hr2]
      by_cases hr3 : c.toNat < 0x10000
      · rw [if_pos hr3]
        simp only [List.cons_append, List.nil_append]
        rw [utf8DecodeAux_lead3 _ _ (by omega) (by omega)]
        rw [utf8DecodeAux_more (0x80 + c.toNat / 64 % 64)
          (0xE0 + c.toNat / 4096 - 0xE0) 2 0x800 _ (by omega) (by omega)
          (by omega)]
        rw [utf8DecodeAux_last (0x80 + c.toNat % 64)
          ((0xE0 + c.toNat / 4096 - 0xE0) * 64 + (0x80 + c.toNat / 64 % 64 - 0x80))
          0x800 c.toNat bs (by omega) (by omega) (by omega) (by omega)
          (by omega) (by omega)]
        rw [Char.ofNat_toNat]
      · rw [if_neg hr3]
        have hr4 : c.toNat < 0x110000 := char_toNat_lt c
        simp only [List.cons_append, List.nil_append]
        rw [utf8DecodeAux_lead4 _ _ (by omega) (by omega)]
        rw [utf8DecodeAux_more (0x80 + c.toNat / 4096 % 64)
          (0xF0 + c.toNat / 262144 - 0xF0) 3 0x10000 _ (by omega) (by omega)
          (by omega)]
        rw [utf8DecodeAux_more (0x80 + c.toNat / 64 % 64)
          ((0xF0 + c.toNat / 262144 - 0xF0) * 64 +
            (0x80 + c.toNat / 4096 % 64 - 0x80)) (3 - 1) 0x10000 _ (by omega)
          (by omega) (by omega)]
        rw [utf8DecodeAux_last (0x80 + c.toNat % 64)
          (((0xF0 + c.toNat / 262144 - 0xF0) * 64 +
              (0x80 + c.toNat / 4096 % 64 - 0x80)) * 64 +
            (0x80 + c.toNat / 64 % 64 - 0x80))
          0x10000 c.toNat bs (by omega) (by omega) (by omega) (by omega)
          (by omega) (by omega)]
        rw [Char.ofNat_toNat]

theorem uriCharsToBytes_plain (c : Char) (hc : c ≠ '%') (rest : List Char) :
    uriCharsToBytes (c :: rest)
      = (uriCharsToBytes rest).map (fun bs => utf8EncodeChar c ++ bs) := by
  rcases rest with _ | ⟨h1, _ | ⟨h2, rest2⟩⟩
  · rw [uriCharsToBytes.eq_3 c [] (by intro a b l h; simp at h), if_neg hc]
  · rw [uriCharsToBytes.eq_3 c [h1] (by intro a b l h; simp at h), if_neg hc]
  · rw [uriCharsToBytes.eq_2, if_neg hc]

theorem uriCharsToBytes_escape (b : Nat) (hb : b < 256) (rest : List Char) :
    uriCharsToBytes
        ('%' :: hexDigitChar (b / 16) :: hexDigitChar (b % 16) :: rest)
      = (uriCharsToBytes rest).map (fun bs => b :: bs) := by
  rw [uriCharsToBytes.eq_2, if_pos rfl]
  rw [hexVal_hexDigitChar (b / 16) (by omega),
    hexVal_hexDigitChar (b % 16) (by omega)]
  show (uriCharsToBytes rest).map (fun bs => (b / 16 * 16 + b % 16) :: bs) = _
  have hbb : b / 16 * 16 + b % 16 = b := by omega
  rw [hbb]

theorem uriCharsToBytes_escapeSeq (bs2 : List Nat) (hb : ∀ b ∈ bs2, b < 256)
    (rest : List Char) :
    uriCharsToBytes
        ((bs2.flatMap fun b =>
          ['%', hexDigitChar (b / 16), hexDigitChar (b % 16)]) ++ rest)
      = (uriCharsToBytes rest).map (fun tail => bs2 ++ tail) := by
  induction bs2 with
  | nil => simp
  | cons b bs2 ih =>
    simp only [List.flatMap_cons, List.cons_append, List.nil_append,
      List.append_assoc]
    rw [uriCharsToBytes_escape b (hb b (by simp)) _]
    rw [ih (fun x hx => hb x (by simp [hx]))]
    simp only [Option.map_map]
    rfl

theorem uriCharsToBytes_encodeChar (c : Char) (rest : List Char) :
    uriCharsToBytes (encodeCharURI c ++ rest)
      = (uriCharsToBytes rest).map (fun bs => utf8EncodeChar c ++ bs) := by
  unfold encodeCharURI
  by_cases hc : isUnreservedURI c
  · rw [if_pos hc]
    simp only [List.cons_append, List.nil_append]
    have hne : c ≠ '%' := by
      intro h
      rw [h] at hc
      exact absurd hc (by decide)
    exact uriCharsToBytes_plain c hne rest
  · rw [if_neg hc]
    rw [uriCharsToBytes_escapeSeq (utf8EncodeChar c)
      (utf8EncodeCodepoint_lt c.toNat (char_toNat_lt c)) rest]

theorem uriCharsToBytes_encode (s : List Char) (rest : List Char) :
    uriCharsToBytes (s.flatMap encodeCharURI ++ rest)
      = (uriCharsToBytes rest).map (fun bs => s.flatMap utf8EncodeChar ++ bs) := by
  induction s with
  | nil => simp
  | cons c s ih =>
    simp only [List.flatMap_cons, List.append_assoc]
    rw [uriCharsToBytes_encodeChar, ih]
    simp only [Option.map_map]
    rfl

theorem utf8Decode_flatMap (s : List Char) (bs : List Nat) :
    utf8DecodeAux (s.flatMap utf8EncodeChar ++ bs) none
      = (utf8DecodeAux bs none).map (fun cs => s ++ cs) := by
  induction s with
  | nil => simp
  | cons c s ih =>
    simp only [List.flatMap_cons, List.append_assoc]
    rw [utf8DecodeAux_encodeChar, ih]
    simp only [Option.map_map]
    rfl

theorem decode_encodeURIComponent (s : List Char) :
    decodeURIComponent (encodeURIComponent s) = some s := by
  unfold decodeURIComponent encodeURIComponent
  rw [← List.append_nil (s.flatMap encodeCharURI), uriCharsToBytes_encode]
  show utf8DecodeAux (s.flatMap utf8EncodeChar ++ []) none = some s
  rw [utf8Decode_flatMap s []]
  show some (s ++ []) = some s
  rw [List.append_nil]

/-! ### Helper lemmas about the renderer and the handlers -/

theorem fetchActivities_preserves (r : FetchResult) (st : PageState) :
    (fetchActivities r st).banner = st.banner ∧
    (fetchActivities r st).timers = st.timers ∧
    (fetchActivities r st).formEmail = st.formEmail ∧
    (fetchActivities r st).formActivity = st.formActivity := by
  cases r with
  | networkError => exact ⟨rfl, rfl, rfl, rfl⟩
  | response ok body =>
    cases body with
    | error e => exact ⟨rfl, rfl, rfl, rfl⟩
    | ok acts =>
      rcases hr : renderActivities acts [] [] with ⟨cards, names⟩ | ⟨cards, names⟩ <;>
        simp [fetchActivities, hr]

theorem mem_classListAdd (cs : List String) (c : String) :
    c ∈ classListAdd cs c := by
  unfold classListAdd
  split
  · assumption
  · simp

theorem jsOr_some (d fb : String) (hd : d ≠ "") : jsOr (some d) fb = d := by
  show (if d = "" then fb else d) = d
  rw [if_neg hd]

theorem renderCard_some (name : String) (d : ActivityDetails) (ps : List String)
    (h : d.participants = some ps) :
    renderCard name d = .ok (buildCard name d ps) := by
  unfold renderCard
  rw [h]

theorem renderedRowCount_buildCard (name : String) (d : ActivityDetails)
    (ps : List String) : renderedRowCount (buildCard name d ps) = ps.length := by
  by_cases h : ps.length = 0
  · simp [renderedRowCount, buildCard, h]
  · simp [renderedRowCount, buildCard, h]

theorem renderActivities_ok (entries : List (String × ActivityDetails))
    (h : ∀ e ∈ entries, e.2.participants ≠ none)
    (cards : List ActivityCard) (names : List String) :
    renderActivities entries cards names
      = .ok (cards ++ entries.map (fun e => buildCard e.1 e.2 (e.2.participants.getD [])),
             names ++ entries.map Prod.fst) := by
  induction entries generalizing cards names with
  | nil => simp [renderActivities]
  | cons e rest ih =>
    obtain ⟨name, d⟩ := e
    have hd : d.participants ≠ none := h (name, d) (by simp)
    obtain ⟨ps, hps⟩ : ∃ ps, d.participants = some ps := by
      cases hd2 : d.participants
      · exact absurd hd2 hd
      · exact ⟨_, rfl⟩
    simp only [renderActivities]
    rw [renderCard_some name d ps hps]
    show renderActivities rest (cards ++ [buildCard name d ps]) (names ++ [name]) = _
    rw [ih (fun x hx => h x (by simp [hx]))]
    simp [hps, List.append_assoc]

theorem renderActivities_error (entries : List (String × ActivityDetails))
    (cards : List ActivityCard) (names : List String)
    (h : ∃ e ∈ entries, e.2.participants = none) :
    ∃ p, renderActivities entries cards names = .error p := by
  induction entries generalizing cards names with
  | nil => simp at h
  | cons e rest ih =>
    obtain ⟨name, d⟩ := e
    by_cases hd : d.participants = none
    · refine ⟨(cards, names), ?_⟩
      simp only [renderActivities]
      unfold renderCard
      rw [hd]
    · have h2 : ∃ e ∈ rest, e.2.participants = none := by
        rcases h with ⟨e2, he2, hpe⟩
        rcases List.mem_cons.mp he2 with rfl | hmem
        · exact absurd hpe hd
        · exact ⟨e2, hmem, hpe⟩
      obtain ⟨ps, hps⟩ : ∃ ps, d.participants = some ps := by
        cases hd2 : d.participants
        · exact absurd hd2 hd
        · exact ⟨_, rfl⟩
      obtain ⟨p, hp⟩ := ih (cards ++ [buildCard name d ps]) (names ++ [name]) h2
      refine ⟨p, ?_⟩
      simp only [renderActivities]
      rw [renderCard_some name d ps hps]
      show renderActivities rest (cards ++ [buildCard name d ps]) (names ++ [name])
        = .error p
      exact hp

/-! ### Claim C2 -/

/-- C2, counterexample: when `GET /activities` throws a network error while
the selection control still holds the option of an earlier render, the list
container does show the fixed failure message, but the selection control is
NOT a placeholder-only list — it keeps its prior option. -/
theorem c2_select_keeps_prior_options :
    (fetchActivities .networkError demoState).activitiesList = .text failureText ∧
    (fetchActivities .networkError demoState).activitySelect
      = .options ["Chess Club"] ∧
    SelectContent.options ["Chess Club"] ≠ SelectContent.options [] :=
  ⟨rfl, rfl, by decide⟩

/-- C2 (amended): when the `GET /activities` request throws a network error,
the list container is replaced by the fixed failure message and every other
part of the page state — in particular the selection control, which is only
placeholder-only if it already was — is left unchanged. -/
theorem c2_amended_network_error_render (st : PageState) :
    fetchActivities .networkError st
      = { st with activitiesList := .text failureText } := rfl

/-! ### Claim C5 -/

/-- C5: for every activity map whose activities all carry a `participants`
list, the render loop succeeds, producing one card per activity and one
select option per activity name; each card's `spots left` value equals
`max_participants - participants.length`, and each card shows one
participant row per participant. -/
theorem c5_spots_left_and_rows (entries : List (String × ActivityDetails))
    (h : ∀ e ∈ entries, e.2.participants ≠ none) :
    renderActivities entries [] []
      = .ok (entries.map (fun e => buildCard e.1 e.2 (e.2.participants.getD [])),
             entries.map Prod.fst) ∧
    (entries.map (fun e => buildCard e.1 e.2 (e.2.participants.getD []))).map
        ActivityCard.spotsLeft
      = entries.map (fun e =>
          e.2.max_participants - ((e.2.participants.getD []).length : Int)) ∧
    (entries.map (fun e => buildCard e.1 e.2 (e.2.participants.getD []))).map
        renderedRowCount
      = entries.map (fun e => (e.2.participants.getD []).length) := by
  refine ⟨?_, ?_, ?_⟩
  · simpa using renderActivities_ok entries h [] []
  · simp [List.map_map, Function.comp, buildCard]
  · simp [List.map_map, Function.comp, renderedRowCount_buildCard]

/-- C5, witness at a concrete activity map. -/
theorem c5_spots_left_and_rows_witness :
    (∀ e ∈ demoEntries, e.2.participants ≠ none) ∧
    (renderActivities demoEntries [] []
      = .ok (demoEntries.map (fun e => buildCard e.1 e.2 (e.2.participants.getD [])),
             demoEntries.map Prod.fst) ∧
    (demoEntries.map (fun e => buildCard e.1 e.2 (e.2.participants.getD []))).map
        ActivityCard.spotsLeft
      = demoEntries.map (fun e =>
          e.2.max_participants - ((e.2.participants.getD []).length : Int)) ∧
    (demoEntries.map (fun e => buildCard e.1 e.2 (e.2.participants.getD []))).map
        renderedRowCount
      = demoEntries.map (fun e => (e.2.participants.getD []).length)) :=
  ⟨by decide, c5_spots_left_and_rows demoEntries (by decide)⟩

/-! ### Claim C6 -/

/-- C6: the activity name and the participant identifier placed
percent-encoded into a participant row's data attributes decode back to the
original strings — decode after encode is the identity, for every string,
reserved URL characters included. -/
theorem c6_data_attribute_roundtrip (name p : String) :
    decodeURIComponent (participantRow name p).dataActivity = some name.toList ∧
    decodeURIComponent (participantRow name p).dataEmail = some p.toList :=
  ⟨decode_encodeURIComponent name.toList, decode_encodeURIComponent p.toList⟩

/-! ### Claim C9 -/

/-- C9: the renderer never inspects the HTTP status of the `GET /activities`
response — for any body, rendering with status `ok₁` and with status `ok₂`
produce identical page states, so a non-OK JSON body is treated exactly like
an OK one. -/
theorem c9_status_never_inspected (ok1 ok2 : Bool)
    (body : Except Unit (List (String × ActivityDetails))) (st : PageState) :
    fetchActivities (.response ok1 body) st
      = fetchActivities (.response ok2 body) st := by
  cases body <;> rfl

/-! ### Claim C10 -/

/-- C10: whenever at least one activity in the response lacks its
`participants` field, the render loop throws while computing `spotsLeft`
(before the participants-presence guard is consulted, cf. `renderCard`), the
surrounding catch runs, and the whole activities list — well-formed
activities included — is replaced by the fixed failure message. -/
theorem c10_missing_participants_kills_render
    (entries : List (String × ActivityDetails)) (ok : Bool) (st : PageState)
    (h : ∃ e ∈ entries, e.2.participants = none) :
    (fetchActivities (.response ok (.ok entries)) st).activitiesList
      = .text failureText := by
  obtain ⟨⟨cards, names⟩, hp⟩ := renderActivities_error entries [] [] h
  simp [fetchActivities, hp]

/-- C10, witness at a concrete activity map with one well-formed and one
malformed activity. -/
theorem c10_missing_participants_kills_render_witness :
    (∃ e ∈ badEntries, e.2.participants = none) ∧
    (fetchActivities (.response true (.ok badEntries)) demoState).activitiesList
      = .text failureText :=
  ⟨by decide, c10_missing_participants_kills_render badEntries true demoState
    (by decide)⟩

/-! ### Claim C1 -/

/-- C1, counterexample: in the Signup Handler's network/parse exception
outcome the banner is made visible but no auto-hide timer is armed — the
claim fails for that outcome. -/
theorem c1_exception_path_arms_no_timer :
    bannerVisible (signupHandler .netError .networkError demoState).banner ∧
    (signupHandler .netError .networkError demoState).timers
      = demoState.timers := by
  constructor
  · show ("hidden" : String) ∉ (signupHandler .netError .networkError demoState).banner.classes
    decide
  · rfl

/-- C1 (amended): for the HTTP-OK success and HTTP non-OK failure outcomes
of the Signup Handler, the banner is made visible and a 5-second auto-hide
timer — whose firing moves the banner back to hidden — is armed; in the
network/parse exception outcome the banner is made visible but no timer is
armed. -/
theorem c1_amended_timer_arming (ok : Bool) (body : ReplyBody)
    (rf : FetchResult) (st : PageState) :
    (signupHandler (.reply ok body) rf st).timers = st.timers ++ [5000] ∧
    bannerVisible (signupHandler (.reply ok body) rf st).banner ∧
    (signupHandler .netError rf st).timers = st.timers ∧
    bannerVisible (signupHandler .netError rf st).banner ∧
    "hidden" ∈ (fireHideTimer st).banner.classes := by
  refine ⟨?_, ?_, rfl, ?_, mem_classListAdd st.banner.classes ("hidden")⟩
  · cases ok
    · rfl
    · simp only [signupHandler]
      rw [(fetchActivities_preserves rf _).2.1]
  · cases ok
    · show ("hidden" : String) ∉ classListRemove ["error"] "hidden"
      decide
    · show ("hidden" : String) ∉ (signupHandler (.reply true body) rf st).banner.classes
      simp only [signupHandler]
      rw [(fetchActivities_preserves rf _).1]
      show ("hidden" : String) ∉ classListRemove ["success"] "hidden"
      decide
  · show ("hidden" : String) ∉ classListRemove ["error"] "hidden"
    decide

/-! ### Claim C7 -/

/-- C7, counterexample: a signup answered HTTP non-OK with body
`{detail: ""}` has a present detail field, yet the banner shows the generic
fallback, not the (empty) detail — the claim fails for present-but-falsy
details. -/
theorem c7_empty_detail_shows_fallback :
    (signupHandler (.reply false ⟨none, some ("")⟩) .networkError demoState).banner.text
      = "An error occurred" ∧
    (signupHandler (.reply false ⟨none, some ("")⟩) .networkError demoState).banner.text
      ≠ "" :=
  ⟨rfl, by decide⟩

/-- C7 (amended): for a signup answered with an HTTP non-OK status — with
any response body, so in particular with the detail absent or empty — the
banner is styled as an error and the form fields are left unchanged; the
banner shows the server-provided detail when it is present and non-empty and
the generic fallback `"An error occurred"` when it is absent or empty. -/
theorem c7_amended_failure_banner (st : PageState) (rf : FetchResult)
    (b : ReplyBody) (m : Option String) (d : String) (hd : d ≠ "") :
    (signupHandler (.reply false b) rf st).banner.classes = ["error"] ∧
    (signupHandler (.reply false b) rf st).formEmail = st.formEmail ∧
    (signupHandler (.reply false b) rf st).formActivity = st.formActivity ∧
    (signupHandler (.reply false b) rf st).activitiesList
      = st.activitiesList ∧
    (signupHandler (.reply false b) rf st).activitySelect
      = st.activitySelect ∧
    (signupHandler (.reply false ⟨m, some d⟩) rf st).banner.text = d ∧
    (signupHandler (.reply false ⟨m, none⟩) rf st).banner.text
      = "An error occurred" ∧
    (signupHandler (.reply false ⟨m, some ("")⟩) rf st).banner.text
      = "An error occurred" := by
  refine ⟨?_, rfl, rfl, rfl, rfl, ?_, rfl, rfl⟩
  · show classListRemove ["error"] "hidden" = ["error"]
    decide
  · show jsOr (some d) "An error occurred" = d
    exact jsOr_some d _ hd

/-- C7, witness at a concrete failure response with an absent detail as the
arbitrary body and a non-empty detail for the text clause. -/
theorem c7_amended_failure_banner_witness :
    ("Already registered" : String) ≠ "" ∧
    ((signupHandler (.reply false ⟨none, none⟩)
        .networkError demoState).banner.classes = ["error"] ∧
    (signupHandler (.reply false ⟨none, none⟩)
        .networkError demoState).formEmail = demoState.formEmail ∧
    (signupHandler (.reply false ⟨none, none⟩)
        .networkError demoState).formActivity = demoState.formActivity ∧
    (signupHandler (.reply false ⟨none, none⟩)
        .networkError demoState).activitiesList = demoState.activitiesList ∧
    (signupHandler (.reply false ⟨none, none⟩)
        .networkError demoState).activitySelect = demoState.activitySelect ∧
    (signupHandler (.reply false ⟨none, some ("Already registered")⟩)
        .networkError demoState).banner.text = "Already registered" ∧
    (signupHandler (.reply false ⟨none, none⟩)
        .networkError demoState).banner.text = "An error occurred" ∧
    (signupHandler (.reply false ⟨none, some ("")⟩)
        .networkError demoState).banner.text = "An error occurred") :=
  ⟨by decide, c7_amended_failure_banner demoState .networkError ⟨none, none⟩
    none ("Already registered") (by decide)⟩

/-! ### Claim C3 -/

/-- C3, counterexample: for an HTTP non-OK response whose body has no
`detail` field, the Signup Handler and the Removal Handler show different
fallback texts, so the two handlers' messaging is not the same for every
outcome. -/
theorem c3_fallback_texts_differ :
    (signupHandler (.reply false ⟨none, none⟩) .networkError demoState).banner.text
      = "An error occurred" ∧
    (removalFetchPart (.reply false ⟨none, none⟩) .networkError demoState).banner.text
      = "Failed to remove participant" ∧
    ("An error occurred" : String) ≠ "Failed to remove participant" :=
  ⟨rfl, rfl, by decide⟩

/-- C3 (amended): the two handlers produce identical banner text, style and
auto-hide timer for HTTP-OK success outcomes and for HTTP non-OK outcomes
carrying a non-empty `detail`; they differ on detail-less failures (fallback
`"An error occurred"` vs `"Failed to remove participant"`) and on exceptions,
where the texts differ and only the Removal Handler arms the auto-hide
timer. -/
theorem c3_amended_handler_equivalence (st : PageState) (rf : FetchResult)
    (body : ReplyBody) (m : Option String) (d : String) (hd : d ≠ "") :
    (signupHandler (.reply true body) rf st).banner
      = (removalFetchPart (.reply true body) rf st).banner ∧
    (signupHandler (.reply true body) rf st).timers
      = (removalFetchPart (.reply true body) rf st).timers ∧
    (signupHandler (.reply false ⟨m, some d⟩) rf st).banner
      = (removalFetchPart (.reply false ⟨m, some d⟩) rf st).banner ∧
    (signupHandler (.reply false ⟨m, some d⟩) rf st).timers
      = (removalFetchPart (.reply false ⟨m, some d⟩) rf st).timers ∧
    (signupHandler .netError rf st).banner.text
      ≠ (removalFetchPart .netError rf st).banner.text ∧
    (signupHandler .netError rf st).timers = st.timers ∧
    (removalFetchPart .netError rf st).timers = st.timers ++ [5000] := by
  refine ⟨?_, ?_, ?_, rfl, ?_, rfl, rfl⟩
  · simp only [signupHandler, removalFetchPart]
    rw [(fetchActivities_preserves rf _).1, (fetchActivities_preserves rf _).1]
  · simp only [signupHandler, removalFetchPart]
    rw [(fetchActivities_preserves rf _).2.1, (fetchActivities_preserves rf _).2.1]
  · have h1 := jsOr_some d ("An error occurred") hd
    have h2 := jsOr_some d ("Failed to remove participant") hd
    simp only [signupHandler, removalFetchPart, h1, h2]
  · show ("Failed to sign up. Please try again." : String)
      ≠ "Failed to remove participant"
    decide

/-- C3, witness at a concrete response body. -/
theorem c3_amended_handler_equivalence_witness :
    ("Already registered" : String) ≠ "" ∧
    ((signupHandler (.reply true ⟨some ("Removed"), none⟩) .networkError demoState).banner
      = (removalFetchPart (.reply true ⟨some ("Removed"), none⟩) .networkError
          demoState).banner ∧
    (signupHandler (.reply true ⟨some ("Removed"), none⟩) .networkError demoState).timers
      = (removalFetchPart (.reply true ⟨some ("Removed"), none⟩) .networkError
          demoState).timers ∧
    (signupHandler (.reply false ⟨none, some ("Already registered")⟩) .networkError
        demoState).banner
      = (removalFetchPart (.reply false ⟨none, some ("Already registered")⟩)
          .networkError demoState).banner ∧
    (signupHandler (.reply false ⟨none, some ("Already registered")⟩) .networkError
        demoState).timers
      = (removalFetchPart (.reply false ⟨none, some ("Already registered")⟩)
          .networkError demoState).timers ∧
    (signupHandler .netError .networkError demoState).banner.text
      ≠ (removalFetchPart .netError .networkError demoState).banner.text ∧
    (signupHandler .netError .networkError demoState).timers = demoState.timers ∧
    (removalFetchPart .netError .networkError demoState).timers
      = demoState.timers ++ [5000]) :=
  ⟨by decide, c3_amended_handler_equivalence demoState .networkError
    ⟨some ("Removed"), none⟩ none ("Already registered") (by decide)⟩

/-! ### Claim C4 -/

/-- C4: a click on a remove button whose row lacks the `data-activity`
attribute does NOT abort silently: `decodeURIComponent(undefined)` yields the
truthy string `"undefined"`, the emptiness guard passes, the confirmation
dialog is shown naming the phantom activity `undefined`, and on confirmation
a deletion request for activity `"undefined"` is issued. -/
theorem c4_missing_attribute_still_prompts :
    (removalHandler missingAttrClick true .netError .networkError
        demoState).confirmPrompt
      = some ("Unregister a@b.c from undefined?") ∧
    (removalHandler missingAttrClick true .netError .networkError
        demoState).request
      = some ("undefined", "a@b.c") := by
  constructor <;> rfl

/-! ### Claim C8 -/

/-- C8: when the user declines the confirmation dialog (and on every other
aborting path of the click handler), no deletion request is issued and the
page state — banner, activities list, selection control, form, timers — is
completely unchanged. -/
theorem c8_decline_changes_nothing (ctx : ClickContext) (res : ApiResult)
    (rf : FetchResult) (st : PageState) :
    (removalHandler ctx false res rf st).state = st ∧
    (removalHandler ctx false res rf st).request = none := by
  unfold removalHandler
  rcases ctx with ⟨btn, item⟩
  cases btn
  · exact ⟨rfl, rfl⟩
  · cases item with
    | none => exact ⟨rfl, rfl⟩
    | some row =>
      rcases h1 : jsDecodeAttr row.dataActivity with e1 | act <;>
        rcases h2 : jsDecodeAttr row.dataEmail with e2 | em <;>
          simp only [h1, h2]
      · exact ⟨rfl, rfl⟩
      · exact ⟨rfl, rfl⟩
      · exact ⟨rfl, rfl⟩
      · by_cases he : act.isEmpty ∨ em.isEmpty
        · exact ⟨by rw [if_pos he]; rfl, by rw [if_pos he]; rfl⟩
        · exact ⟨by rw [if_neg he]; rfl, by rw [if_neg he]; rfl⟩

end App
